import Mathlib

/-!
Shallow embedding of the ledger reconciliation model of the
life-budget-hub repository (src/hooks/useBudgetData.ts and
src/lib/database.types.ts), together with theorems settling the
frozen claims about it.

The datastore (the remote tables behind the supabase client) is
modelled as explicit lists of rows; every operation of the hook is a
pure function from an optional authenticated user, the store and the
operation's arguments to a result together with the successor store.
Timestamps produced by `new Date()` in the source are passed in as
explicit string parameters.  DB-generated row ids are modelled by a
`nextId` counter in the store.  Backend write failures, which in the
source surface as a non-null `error` field of a query result, are
modelled for the refund operation by explicit `insertOk` / `updateOk`
fault flags (the fault-free run instantiates both with `true`).
-/

namespace BudgetHub

/-- Transaction `type` column (database.types.ts, transactions.Row.type). -/
inductive TType where
  | expense | income | refund | investment | savings | transfer
  deriving DecidableEq, Repr

/-- Transaction `category` column. -/
inductive Category where
  | need | want | savings | investments
  deriving DecidableEq, Repr

/-- Transaction `payment_type` column. -/
inductive PaymentType where
  | cash | card | upi | netbanking | cheque | other
  deriving DecidableEq, Repr

/-- Transaction `status` column: active, cancelled, refunded or partial_refund. -/
inductive TStatus where
  | active | cancelled | refunded | partial_refund
  deriving DecidableEq, Repr

/-- transaction_history `action` column. -/
inductive HAction where
  | created | updated | deleted | refunded | amount_reduced
  deriving DecidableEq, Repr

/-- investment_portfolios `allocation_type` column. -/
inductive AllocationType where
  | percentage | amount
  deriving DecidableEq, Repr

/-- Row of the `transactions` table (database.types.ts lines 134-170).
Row ids and user ids are modelled as naturals, monetary amounts as
integers, dates/times/timestamps as strings. -/
structure Transaction where
  id : Nat
  user_id : Nat
  type : TType
  category : Category
  amount : Int
  description : Option String
  notes : Option String
  date : String
  time : Option String
  payment_type : Option PaymentType
  spent_for : Option String
  tag : Option String
  portfolio_id : Option Nat
  investment_type : Option String
  refund_for : Option Nat
  original_transaction_id : Option Nat
  status : TStatus
  is_deleted : Bool
  created_at : String
  updated_at : String
  deleted_at : Option String
  deriving DecidableEq, Repr

/-- The only JSON values the hook ever writes into the
`old_values` / `new_values` columns of transaction_history are objects
of the shape written at useBudgetData.ts lines 894-895, an object with a
single `amount` field. -/
structure AmountValues where
  amount : Int
  deriving DecidableEq, Repr

/-- Row of the `transaction_history` table (database.types.ts lines 270-286). -/
structure TransactionHistory where
  id : Nat
  transaction_id : Nat
  user_id : Nat
  action : HAction
  old_values : Option AmountValues
  new_values : Option AmountValues
  changes_description : Option String
  created_at : String
  created_by : Option Nat
  deriving DecidableEq, Repr

/-- Row of the `profiles` table. -/
structure Profile where
  id : Nat
  email : String
  full_name : Option String
  avatar_url : Option String
  created_at : String
  updated_at : String
  deriving DecidableEq, Repr

/-- Row of the `budget_configs` table. -/
structure BudgetConfig where
  id : Nat
  user_id : Nat
  monthly_salary : Int
  budget_percentage : Int
  allocation_need : Int
  allocation_want : Int
  allocation_savings : Int
  allocation_investments : Int
  created_at : String
  updated_at : String
  deriving DecidableEq, Repr

/-- Row of the `investment_portfolios` table. -/
structure InvestmentPortfolio where
  id : Nat
  user_id : Nat
  name : String
  allocation_type : AllocationType
  allocation_value : Int
  allocated_amount : Int
  invested_amount : Int
  allow_direct_investment : Bool
  is_active : Bool
  created_at : String
  updated_at : String
  deriving DecidableEq, Repr

/-- The authenticated user delivered by useAuth; `user.email` may be null. -/
structure UserInfo where
  id : Nat
  email : Option String
  deriving DecidableEq, Repr

/-- The remote datastore: one list of rows per table, plus a counter
supplying the next DB-generated row id. -/
structure Store where
  profiles : List Profile
  budget_configs : List BudgetConfig
  investment_portfolios : List InvestmentPortfolio
  transactions : List Transaction
  transaction_history : List TransactionHistory
  nextId : Nat
  deriving DecidableEq, Repr

/-- Errors an operation of the hook can return.  `strError s` models a
directly returned object whose error field is the string `s` (the
"User not authenticated" guard and the reduction-amount check);
`notFound` models a supabase `.single()` error when no row matches
(thrown, caught, and returned as the error field); `writeFailure`
models a backend error on an insert (thrown, caught, returned). -/
inductive OpError where
  | strError (msg : String)
  | notFound
  | writeFailure
  deriving DecidableEq, Repr

/-- Boolean success test on an operation result. -/
def exOk {α : Type} (e : Except OpError α) : Bool :=
  match e with
  | .ok _ => true
  | .error _ => false

/-- JavaScript `x || d` for a nullable string `x`: null and the empty
string are falsy and give the default. -/
def jsOrDefault (s : Option String) (d : String) : String :=
  match s with
  | none => d
  | some v => if v = "" then d else v

/-- JavaScript template fragment `notes ? ": " + notes : ""` used in
reduceInvestmentAmount (an undefined or empty notes argument is falsy). -/
def optNotesSuffix (notes : Option String) : String :=
  match notes with
  | none => ""
  | some n => if n = "" then "" else ": " ++ n

/-- Insert payload for the `transactions` table
(database.types.ts, transactions.Insert, minus the id / user_id /
created_at / updated_at columns the hook never supplies). -/
structure TransactionInsert where
  type : TType
  category : Category
  amount : Int
  description : Option String := none
  notes : Option String := none
  date : String
  time : Option String := none
  payment_type : Option PaymentType := none
  spent_for : Option String := none
  tag : Option String := none
  portfolio_id : Option Nat := none
  investment_type : Option String := none
  refund_for : Option Nat := none
  original_transaction_id : Option Nat := none
  status : Option TStatus := none
  is_deleted : Option Bool := none
  deleted_at : Option String := none
  deriving DecidableEq, Repr

/-- Materialise an insert payload as a stored row: the DB supplies the
id and the created_at / updated_at timestamps, and fills column
defaults (`status` defaults to active, `is_deleted` to false). -/
def insertRow (freshId uid : Nat) (ins : TransactionInsert) (nowIso : String) :
    Transaction :=
  { id := freshId
    user_id := uid
    type := ins.type
    category := ins.category
    amount := ins.amount
    description := ins.description
    notes := ins.notes
    date := ins.date
    time := ins.time
    payment_type := ins.payment_type
    spent_for := ins.spent_for
    tag := ins.tag
    portfolio_id := ins.portfolio_id
    investment_type := ins.investment_type
    refund_for := ins.refund_for
    original_transaction_id := ins.original_transaction_id
    status := ins.status.getD .active
    is_deleted := ins.is_deleted.getD false
    created_at := nowIso
    updated_at := nowIso
    deleted_at := ins.deleted_at }

/-- The fetch `.select("*").eq("id", id).eq("user_id", uid).single()`
performed at the top of refundTransaction and reduceInvestmentAmount:
the first stored row with the given id owned by the given user. -/
def findTransaction (s : Store) (id uid : Nat) : Option Transaction :=
  s.transactions.find? (fun t => t.id == id && t.user_id == uid)

/-- The `newStatus` expression of refundTransaction
(useBudgetData.ts lines 822-825):
`refundAmount >= originalTransaction.amount ? "refunded" : "partial_refund"`. -/
def newStatusFor (refundAmount amount : Int) : TStatus :=
  if refundAmount ≥ amount then .refunded else .partial_refund

/-- The insert payload refundTransaction sends for the new refund row
(useBudgetData.ts lines 801-815). -/
def refundInsertOf (originalTransactionId : Nat) (originalTransaction : Transaction)
    (refundAmount : Int) (notes : Option String) (today nowTime : String) :
    TransactionInsert :=
  { type := .refund
    category := originalTransaction.category
    amount := refundAmount
    description := some ("Refund for: " ++
      jsOrDefault originalTransaction.description "Transaction")
    notes := notes
    date := today
    time := some nowTime
    payment_type := originalTransaction.payment_type
    refund_for := some originalTransactionId
    status := some .active }

/-- The status update refundTransaction issues against the original row
(useBudgetData.ts lines 826-832): it filters on `id` only (no user_id
filter in the source), so it rewrites every stored row with that id. -/
def applyRefundUpdate (originalTransactionId : Nat) (newStatus : TStatus)
    (refundId : Nat) (t : Transaction) : Transaction :=
  if t.id == originalTransactionId then
    { t with status := newStatus, original_transaction_id := some refundId }
  else t

/-- refundTransaction (useBudgetData.ts lines 782-846).  `insertOk`
injects a backend failure on the refund insert (the source throws the
error and returns it); `updateOk` injects a backend failure on the
subsequent status update — the source never inspects that query's
result, so on failure it still returns success with the update lost. -/
def refundTransactionBody (user : UserInfo) (s : Store)
    (originalTransactionId : Nat) (refundAmount : Int) (notes : Option String)
    (today nowTime nowIso : String) (insertOk updateOk : Bool) :
    Except OpError Transaction × Store :=
  match findTransaction s originalTransactionId user.id with
    | none => (.error .notFound, s)
    | some originalTransaction =>
      if insertOk then
        let refund := insertRow s.nextId user.id
          (refundInsertOf originalTransactionId originalTransaction refundAmount
            notes today nowTime) nowIso
        let newStatus := newStatusFor refundAmount originalTransaction.amount
        let txs :=
          if updateOk then
            (s.transactions ++ [refund]).map
              (applyRefundUpdate originalTransactionId newStatus refund.id)
          else s.transactions ++ [refund]
        (.ok refund, { s with transactions := txs, nextId := s.nextId + 1 })
      else
        (.error .writeFailure, s)

/-- refundTransaction's auth guard (useBudgetData.ts lines 782-788)
wrapped around its body. -/
def refundTransaction (user : Option UserInfo) (s : Store)
    (originalTransactionId : Nat) (refundAmount : Int) (notes : Option String)
    (today nowTime nowIso : String) (insertOk updateOk : Bool) :
    Except OpError Transaction × Store :=
  match user with
  | none => (.error (.strError "User not authenticated"), s)
  | some user =>
    refundTransactionBody user s originalTransactionId refundAmount notes
      today nowTime nowIso insertOk updateOk

/-- The notes string reduceInvestmentAmount writes into the updated row
(useBudgetData.ts line 880). -/
def reduceNotesText (originalTransaction : Transaction) (reductionAmount : Int)
    (notes : Option String) : String :=
  originalTransaction.notes.getD "" ++ "\nAmount reduced by ₹" ++
    toString reductionAmount ++ optNotesSuffix notes

/-- The changes_description string reduceInvestmentAmount writes into
the history row (useBudgetData.ts line 896). -/
def reduceDescText (reductionAmount : Int) (notes : Option String) : String :=
  "Amount reduced by ₹" ++ toString reductionAmount ++ optNotesSuffix notes

/-- The row update reduceInvestmentAmount issues
(useBudgetData.ts lines 876-885): sets amount and notes on rows
matching both the transaction id and the calling user. -/
def reduceRowUpdate (transactionId uid : Nat) (newAmount : Int)
    (newNotes : String) (t : Transaction) : Transaction :=
  if t.id == transactionId && t.user_id == uid then
    { t with amount := newAmount, notes := some newNotes }
  else t

/-- The history row reduceInvestmentAmount inserts
(useBudgetData.ts lines 890-898): action amount_reduced, the old and
new amounts as the before/after snapshots. -/
def reduceHistoryRow (histId tid uid : Nat) (oldAmount reductionAmount : Int)
    (notes : Option String) (nowIso : String) : TransactionHistory :=
  { id := histId
    transaction_id := tid
    user_id := uid
    action := .amount_reduced
    old_values := some { amount := oldAmount }
    new_values := some { amount := oldAmount - reductionAmount }
    changes_description := some (reduceDescText reductionAmount notes)
    created_at := nowIso
    created_by := some uid }

/-- reduceInvestmentAmount (useBudgetData.ts lines 848-908), after the
auth guard. -/
def reduceInvestmentAmountBody (user : UserInfo) (s : Store)
    (transactionId : Nat) (reductionAmount : Int) (notes : Option String)
    (nowIso : String) : Except OpError Transaction × Store :=
  match findTransaction s transactionId user.id with
    | none => (.error .notFound, s)
    | some originalTransaction =>
      if originalTransaction.amount ≤ reductionAmount then
        (.error (.strError
          "Reduction amount cannot be greater than or equal to original amount"), s)
      else
        let newAmount := originalTransaction.amount - reductionAmount
        let newNotes := reduceNotesText originalTransaction reductionAmount notes
        let hist : TransactionHistory :=
          reduceHistoryRow s.nextId transactionId user.id
            originalTransaction.amount reductionAmount notes nowIso
        (.ok { originalTransaction with amount := newAmount, notes := some newNotes },
          { s with
            transactions :=
              s.transactions.map (reduceRowUpdate transactionId user.id newAmount newNotes)
            transaction_history := s.transaction_history ++ [hist]
            nextId := s.nextId + 1 })

/-- reduceInvestmentAmount's auth guard (useBudgetData.ts lines 848-854)
wrapped around its body. -/
def reduceInvestmentAmount (user : Option UserInfo) (s : Store)
    (transactionId : Nat) (reductionAmount : Int) (notes : Option String)
    (nowIso : String) : Except OpError Transaction × Store :=
  match user with
  | none => (.error (.strError "User not authenticated"), s)
  | some user =>
    reduceInvestmentAmountBody user s transactionId reductionAmount notes nowIso

/-- The row update of the soft-delete branch of deleteTransaction
(useBudgetData.ts lines 751-762): sets is_deleted, deleted_at and a
cancelled status on rows matching the id and the calling user. -/
def softDeleteRow (id uid : Nat) (nowIso : String) (t : Transaction) : Transaction :=
  if t.id == id && t.user_id == uid then
    { t with is_deleted := true, deleted_at := some nowIso, status := .cancelled }
  else t

/-- deleteTransaction (useBudgetData.ts lines 747-780).  An update or a
delete matching zero rows is not an error for the backend, so both
branches succeed unconditionally. -/
def deleteTransaction (user : Option UserInfo) (s : Store) (id : Nat)
    (softDelete : Bool) (nowIso : String) : Except OpError Unit × Store :=
  match user with
  | none => (.error (.strError "User not authenticated"), s)
  | some user =>
    if softDelete then
      (.ok (), { s with transactions := s.transactions.map (softDeleteRow id user.id nowIso) })
    else
      (.ok (), { s with transactions :=
        s.transactions.filter (fun t => !(t.id == id && t.user_id == user.id)) })

/-- addTransaction (useBudgetData.ts lines 679-723). -/
def addTransaction (user : Option UserInfo) (s : Store) (ins : TransactionInsert)
    (nowIso : String) : Except OpError Transaction × Store :=
  match user with
  | none => (.error (.strError "User not authenticated"), s)
  | some user =>
    let row := insertRow s.nextId user.id ins nowIso
    (.ok row, { s with transactions := s.transactions ++ [row], nextId := s.nextId + 1 })

/-- Update payload for the `transactions` table
(database.types.ts, transactions.Update: every column optional; for a
nullable column the payload may set it to null, hence Option Option). -/
structure TransactionUpdate where
  id : Option Nat := none
  user_id : Option Nat := none
  type : Option TType := none
  category : Option Category := none
  amount : Option Int := none
  description : Option (Option String) := none
  notes : Option (Option String) := none
  date : Option String := none
  time : Option (Option String) := none
  payment_type : Option (Option PaymentType) := none
  spent_for : Option (Option String) := none
  tag : Option (Option String) := none
  portfolio_id : Option (Option Nat) := none
  investment_type : Option (Option String) := none
  refund_for : Option (Option Nat) := none
  original_transaction_id : Option (Option Nat) := none
  status : Option TStatus := none
  is_deleted : Option Bool := none
  created_at : Option String := none
  updated_at : Option String := none
  deleted_at : Option (Option String) := none
  deriving DecidableEq, Repr

/-- Apply an update payload to a stored row: supplied columns are
overwritten, omitted columns are kept. -/
def applyTxUpdate (u : TransactionUpdate) (t : Transaction) : Transaction :=
  { id := u.id.getD t.id
    user_id := u.user_id.getD t.user_id
    type := u.type.getD t.type
    category := u.category.getD t.category
    amount := u.amount.getD t.amount
    description := u.description.getD t.description
    notes := u.notes.getD t.notes
    date := u.date.getD t.date
    time := u.time.getD t.time
    payment_type := u.payment_type.getD t.payment_type
    spent_for := u.spent_for.getD t.spent_for
    tag := u.tag.getD t.tag
    portfolio_id := u.portfolio_id.getD t.portfolio_id
    investment_type := u.investment_type.getD t.investment_type
    refund_for := u.refund_for.getD t.refund_for
    original_transaction_id := u.original_transaction_id.getD t.original_transaction_id
    status := u.status.getD t.status
    is_deleted := u.is_deleted.getD t.is_deleted
    created_at := u.created_at.getD t.created_at
    updated_at := u.updated_at.getD t.updated_at
    deleted_at := u.deleted_at.getD t.deleted_at }

/-- updateTransaction (useBudgetData.ts lines 725-745): update filtered
on id and user_id followed by `.select().single()`, which errors when
no row matched. -/
def updateTransaction (user : Option UserInfo) (s : Store) (id : Nat)
    (upd : TransactionUpdate) : Except OpError Transaction × Store :=
  match user with
  | none => (.error (.strError "User not authenticated"), s)
  | some user =>
    match findTransaction s id user.id with
    | none => (.error .notFound, s)
    | some t =>
      (.ok (applyTxUpdate upd t),
        { s with transactions := s.transactions.map (fun r =>
            if r.id == id && r.user_id == user.id then applyTxUpdate upd r else r) })

/-- The config argument of saveBudgetConfig
(Omit of the BudgetConfig row without id / user_id / timestamps). -/
structure BudgetConfigInput where
  monthly_salary : Int
  budget_percentage : Int
  allocation_need : Int
  allocation_want : Int
  allocation_savings : Int
  allocation_investments : Int
  deriving DecidableEq, Repr

/-- saveBudgetConfig (useBudgetData.ts lines 523-584): upserts the
caller's profile row (conflict target id), then upserts the budget
config.  The config upsert carries no id; one config per user (spec §3),
so it is keyed on user_id here. -/
def saveBudgetConfig (user : Option UserInfo) (s : Store)
    (config : BudgetConfigInput) (nowIso : String) :
    Except OpError BudgetConfig × Store :=
  match user with
  | none => (.error (.strError "User not authenticated"), s)
  | some user =>
    let freshProfile : Profile :=
      { id := user.id
        email := user.email.getD ""
        full_name := none
        avatar_url := none
        created_at := nowIso
        updated_at := nowIso }
    let profiles :=
      if s.profiles.any (fun p => p.id == user.id) then
        s.profiles.map (fun p =>
          if p.id == user.id then
            { p with email := user.email.getD "", updated_at := nowIso }
          else p)
      else
        s.profiles ++ [freshProfile]
    match s.budget_configs.find? (fun c => c.user_id == user.id) with
    | some c =>
      let c2 : BudgetConfig :=
        { c with
          monthly_salary := config.monthly_salary
          budget_percentage := config.budget_percentage
          allocation_need := config.allocation_need
          allocation_want := config.allocation_want
          allocation_savings := config.allocation_savings
          allocation_investments := config.allocation_investments
          updated_at := nowIso }
      let s2 : Store :=
        { s with
          profiles := profiles
          budget_configs := s.budget_configs.map (fun d =>
            if d.user_id == user.id then c2 else d) }
      (.ok c2, s2)
    | none =>
      let c2 : BudgetConfig :=
        { id := s.nextId
          user_id := user.id
          monthly_salary := config.monthly_salary
          budget_percentage := config.budget_percentage
          allocation_need := config.allocation_need
          allocation_want := config.allocation_want
          allocation_savings := config.allocation_savings
          allocation_investments := config.allocation_investments
          created_at := nowIso
          updated_at := nowIso }
      let s2 : Store :=
        { s with
          profiles := profiles
          budget_configs := s.budget_configs ++ [c2]
          nextId := s.nextId + 1 }
      (.ok c2, s2)

/-- Insert payload for the `investment_portfolios` table (its Insert
type minus id / user_id / timestamps). -/
structure InvestmentPortfolioInsert where
  name : String
  allocation_type : Option AllocationType := none
  allocation_value : Option Int := none
  allocated_amount : Option Int := none
  invested_amount : Option Int := none
  allow_direct_investment : Option Bool := none
  is_active : Option Bool := none
  deriving DecidableEq, Repr

/-- saveInvestmentPortfolio (useBudgetData.ts lines 587-631); column
defaults for omitted optional columns follow the conventions visible
in the source (zero amounts, percentage allocation, active). -/
def saveInvestmentPortfolio (user : Option UserInfo) (s : Store)
    (p : InvestmentPortfolioInsert) (nowIso : String) :
    Except OpError InvestmentPortfolio × Store :=
  match user with
  | none => (.error (.strError "User not authenticated"), s)
  | some user =>
    let row : InvestmentPortfolio :=
      { id := s.nextId
        user_id := user.id
        name := p.name
        allocation_type := p.allocation_type.getD .percentage
        allocation_value := p.allocation_value.getD 0
        allocated_amount := p.allocated_amount.getD 0
        invested_amount := p.invested_amount.getD 0
        allow_direct_investment := p.allow_direct_investment.getD false
        is_active := p.is_active.getD true
        created_at := nowIso
        updated_at := nowIso }
    (.ok row, { s with
      investment_portfolios := s.investment_portfolios ++ [row]
      nextId := s.nextId + 1 })

/-- Update payload for the `investment_portfolios` table. -/
structure InvestmentPortfolioUpdate where
  name : Option String := none
  allocation_type : Option AllocationType := none
  allocation_value : Option Int := none
  allocated_amount : Option Int := none
  invested_amount : Option Int := none
  allow_direct_investment : Option Bool := none
  is_active : Option Bool := none
  deriving DecidableEq, Repr

/-- Apply a portfolio update payload to a stored row. -/
def applyPortfolioUpdate (u : InvestmentPortfolioUpdate)
    (p : InvestmentPortfolio) : InvestmentPortfolio :=
  { p with
    name := u.name.getD p.name
    allocation_type := u.allocation_type.getD p.allocation_type
    allocation_value := u.allocation_value.getD p.allocation_value
    allocated_amount := u.allocated_amount.getD p.allocated_amount
    invested_amount := u.invested_amount.getD p.invested_amount
    allow_direct_investment := u.allow_direct_investment.getD p.allow_direct_investment
    is_active := u.is_active.getD p.is_active }

/-- updateInvestmentPortfolio (useBudgetData.ts lines 633-656). -/
def updateInvestmentPortfolio (user : Option UserInfo) (s : Store) (id : Nat)
    (upd : InvestmentPortfolioUpdate) : Except OpError InvestmentPortfolio × Store :=
  match user with
  | none => (.error (.strError "User not authenticated"), s)
  | some user =>
    match s.investment_portfolios.find? (fun p => p.id == id && p.user_id == user.id) with
    | none => (.error .notFound, s)
    | some p =>
      (.ok (applyPortfolioUpdate upd p),
        { s with investment_portfolios := s.investment_portfolios.map (fun r =>
            if r.id == id && r.user_id == user.id then applyPortfolioUpdate upd r else r) })

/-- deleteInvestmentPortfolio (useBudgetData.ts lines 658-676): a
logical delete setting is_active to false on the matching row. -/
def deleteInvestmentPortfolio (user : Option UserInfo) (s : Store) (id : Nat) :
    Except OpError Unit × Store :=
  match user with
  | none => (.error (.strError "User not authenticated"), s)
  | some user =>
    (.ok (), { s with investment_portfolios := s.investment_portfolios.map (fun p =>
        if p.id == id && p.user_id == user.id then { p with is_active := false } else p) })

/-- Ordering of the transaction read of fetchBudgetData
(useBudgetData.ts lines 286-288): date descending, then created_at
descending. -/
def fetchOrder (a b : Transaction) : Bool :=
  decide (b.date < a.date) || (b.date == a.date && decide (b.created_at ≤ a.created_at))

/-- The transaction read of fetchBudgetData
(useBudgetData.ts lines 282-306): rows of the calling user, ordered by
date then created_at descending, restricted to the selected month's
date range when one is given and to the first 100 rows otherwise.
Note: the source applies no is_deleted filter on this read. -/
def fetchTransactionsHook (s : Store) (uid : Nat)
    (range : Option (String × String)) : List Transaction :=
  let base := (s.transactions.filter (fun t => t.user_id == uid)).mergeSort fetchOrder
  match range with
  | some r => base.filter (fun t => decide (r.1 ≤ t.date) && decide (t.date ≤ r.2))
  | none => base.take 100

/-- Category column of the variant hook appended in database.types.ts
(line 399), which admits the extra value unplanned. -/
inductive CategoryV where
  | need | want | savings | investments | unplanned
  deriving DecidableEq, Repr

/-- Transaction row of the variant hook appended in database.types.ts
(lines 392-417): it scopes rows by profile name and budget month/year
and names the date columns transaction_date / transaction_time. -/
structure TransactionV where
  id : Nat
  user_id : Nat
  profile_name : String
  budget_month : Int
  budget_year : Int
  type : TType
  category : CategoryV
  amount : Int
  description : Option String
  notes : Option String
  transaction_date : String
  transaction_time : Option String
  payment_type : Option PaymentType
  spent_for : Option String
  tag : Option String
  portfolio_id : Option Nat
  investment_type : Option String
  refund_for : Option Nat
  original_transaction_id : Option Nat
  status : TStatus
  is_deleted : Bool
  created_at : String
  updated_at : String
  deleted_at : Option String
  deriving DecidableEq, Repr

/-- The transaction read of the variant hook
(database.types.ts lines 479-487): unlike the primary hook's read, it
filters `.eq(is_deleted, false)`. -/
def fetchTransactionsVariant (rows : List TransactionV) (uid : Nat)
    (profile : String) (month year : Int) : List TransactionV :=
  (rows.filter (fun t => t.user_id == uid && t.profile_name == profile &&
      t.budget_month == month && t.budget_year == year && t.is_deleted == false)).mergeSort
    (fun a b => decide (b.transaction_date ≤ a.transaction_date))

/-- Concrete fixture: an active expense of amount 100 owned by user 7
(the transaction of the spec's refund scenarios, section 8). -/
def tx0 : Transaction :=
  { id := 1
    user_id := 7
    type := .expense
    category := .need
    amount := 100
    description := some "Shoes"
    notes := none
    date := "2026-01-05"
    time := none
    payment_type := some .card
    spent_for := none
    tag := none
    portfolio_id := none
    investment_type := none
    refund_for := none
    original_transaction_id := none
    status := .active
    is_deleted := false
    created_at := "2026-01-05T10:00:00Z"
    updated_at := "2026-01-05T10:00:00Z"
    deleted_at := none }

/-- Concrete fixture: the authenticated owner of tx0. -/
def user7 : UserInfo := { id := 7, email := some "u7@example.com" }

/-- Concrete fixture: a store holding exactly tx0. -/
def store0 : Store :=
  { profiles := []
    budget_configs := []
    investment_portfolios := []
    transactions := [tx0]
    transaction_history := []
    nextId := 2 }

/-- Concrete fixture: a soft-deleted transaction of user 7. -/
def txDeleted : Transaction :=
  { tx0 with
    id := 5
    is_deleted := true
    status := .cancelled
    deleted_at := some "2026-01-10T00:00:00Z" }

/-- Concrete fixture: a store holding exactly the soft-deleted txDeleted. -/
def store1 : Store := { store0 with transactions := [txDeleted], nextId := 6 }

/-- The status update of refundTransaction preserves the id and owner
of every row it touches. -/
theorem applyRefundUpdate_pred (oid : Nat) (st : TStatus) (rid : Nat)
    (p : Nat → Nat → Bool) (t : Transaction) :
    p (applyRefundUpdate oid st rid t).id (applyRefundUpdate oid st rid t).user_id
      = p t.id t.user_id := by
  unfold applyRefundUpdate
  split <;> rfl

/-- find? over rows rewritten by the refund status update, for a
predicate reading only id and owner, commutes with the rewrite. -/
theorem find?_map_applyRefundUpdate (l : List Transaction) (oid uid : Nat)
    (st : TStatus) (rid : Nat) :
    (l.map (applyRefundUpdate oid st rid)).find?
        (fun t => t.id == oid && t.user_id == uid)
      = (l.find? (fun t => t.id == oid && t.user_id == uid)).map
          (applyRefundUpdate oid st rid) := by
  rw [List.find?_map]
  have hfun : ((fun t : Transaction => t.id == oid && t.user_id == uid) ∘
      applyRefundUpdate oid st rid) = (fun t : Transaction => t.id == oid && t.user_id == uid) := by
    funext t
    exact applyRefundUpdate_pred oid st rid (fun a b => a == oid && b == uid) t
  rw [hfun]

/-- The refund/partial_refund decision of the source is the comparison
refundAmount ≥ amount, not an equality test. -/
theorem newStatusFor_iff (r a : Int) :
    (newStatusFor r a = .refunded ↔ r ≥ a) ∧
    (newStatusFor r a = .partial_refund ↔ r < a) := by
  unfold newStatusFor
  by_cases h : r ≥ a
  · rw [if_pos h]
    constructor
    · simp [h]
    · constructor
      · intro hc
        exact absurd hc (by decide)
      · intro hc
        omega
  · rw [if_neg h]
    constructor
    · constructor
      · intro hc
        exact absurd hc (by decide)
      · intro hc
        omega
    · simp
      omega

/-- Normal-form description of a fault-free refundTransaction run once
the original transaction has been fetched: the result value and the
successor store, spelled out. -/
theorem refund_post_state (u : UserInfo) (s : Store) (oid : Nat) (r : Int)
    (notes : Option String) (today nowTime nowIso : String) (T : Transaction)
    (hT : findTransaction s oid u.id = some T) :
    refundTransaction (some u) s oid r notes today nowTime nowIso true true
      = (.ok (insertRow s.nextId u.id (refundInsertOf oid T r notes today nowTime) nowIso),
          { s with
            transactions := (s.transactions ++
                [insertRow s.nextId u.id (refundInsertOf oid T r notes today nowTime) nowIso]).map
              (applyRefundUpdate oid (newStatusFor r T.amount) s.nextId)
            nextId := s.nextId + 1 }) := by
  show refundTransactionBody u s oid r notes today nowTime nowIso true true = _
  unfold refundTransactionBody
  rw [hT]
  rfl

/-- Normal-form description of a successful reduceInvestmentAmount run:
the returned row and the successor store, spelled out. -/
theorem reduce_post_state (u : UserInfo) (s : Store) (tid : Nat) (r : Int)
    (notes : Option String) (nowIso : String) (T : Transaction)
    (hT : findTransaction s tid u.id = some T) (hr : r < T.amount) :
    reduceInvestmentAmount (some u) s tid r notes nowIso
      = (.ok { T with amount := T.amount - r, notes := some (reduceNotesText T r notes) },
          { s with
            transactions := s.transactions.map
              (reduceRowUpdate tid u.id (T.amount - r) (reduceNotesText T r notes))
            transaction_history := s.transaction_history ++
              [reduceHistoryRow s.nextId tid u.id T.amount r notes nowIso]
            nextId := s.nextId + 1 }) := by
  show reduceInvestmentAmountBody u s tid r notes nowIso = _
  unfold reduceInvestmentAmountBody
  rw [hT]
  dsimp only
  rw [if_neg (not_le.mpr hr)]

/-- Soft-deleting a row that has already been soft-deleted rewrites the
same columns again, so two applications collapse to the later one. -/
theorem softDeleteRow_idem (id uid : Nat) (n1 n2 : String) (t : Transaction) :
    softDeleteRow id uid n2 (softDeleteRow id uid n1 t) = softDeleteRow id uid n2 t := by
  by_cases h : (t.id == id && t.user_id == uid) = true
  · simp [softDeleteRow, h]
  · simp [softDeleteRow, h]

/-- Every row returned by the variant hook's transaction read has
is_deleted false: that read filters deleted rows out, unlike the
primary hook's read. -/
theorem variant_read_excludes_deleted (rows : List TransactionV) (uid : Nat)
    (profile : String) (month year : Int) :
    ∀ t ∈ fetchTransactionsVariant rows uid profile month year,
      t.is_deleted = false := by
  intro t ht
  unfold fetchTransactionsVariant at ht
  rw [List.mem_mergeSort, List.mem_filter] at ht
  have hp := ht.2
  simp only [Bool.and_eq_true, beq_iff_eq] at hp
  exact hp.2

/-- C1 counterexample: refunding 150 against a transaction of amount
100 sets the original's stored status to refunded although 150 is not
equal to 100, so "status becomes refunded exactly when the refund
amount equals the original amount" is false of the code (the source
compares with ≥, useBudgetData.ts line 823). -/
theorem c1_status_equality_counterexample :
    ((refundTransaction (some user7) store0 1 150 none "2026-02-01" "12:00:00"
        "2026-02-01T12:00:00Z" true true).2.transactions.find?
      (fun t => t.id == 1 && t.user_id == 7)).map Transaction.status
      = some TStatus.refunded ∧ (150 : Int) ≠ 100 :=
  ⟨rfl, by decide⟩

/-- C1 (amended): for an authenticated caller and an owned original
transaction, a fault-free refund sets the original's stored status to
refunded exactly when the refund amount is greater than or equal to the
original amount, and to partial_refund exactly when it is strictly
less. -/
theorem c1_refund_status_iff (u : UserInfo) (s : Store) (oid : Nat) (r : Int)
    (notes : Option String) (today nowTime nowIso : String) (T : Transaction)
    (hT : findTransaction s oid u.id = some T) :
    ((refundTransaction (some u) s oid r notes today nowTime nowIso true
        true).2.transactions.find? (fun t => t.id == oid && t.user_id == u.id)).map
      Transaction.status = some (newStatusFor r T.amount) ∧
    (newStatusFor r T.amount = .refunded ↔ r ≥ T.amount) ∧
    (newStatusFor r T.amount = .partial_refund ↔ r < T.amount) := by
  refine ⟨?_, (newStatusFor_iff r T.amount).1, (newStatusFor_iff r T.amount).2⟩
  have hT2 := hT
  unfold findTransaction at hT2
  have hids : T.id = oid ∧ T.user_id = u.id := by
    simpa using List.find?_some hT2
  rw [refund_post_state u s oid r notes today nowTime nowIso T hT]
  dsimp only
  rw [List.map_append, List.find?_append, find?_map_applyRefundUpdate, hT2]
  simp [Option.or, applyRefundUpdate, hids.1]

/-- C1 witness: the amended status rule evaluated at the concrete
fixture, with a refund of the full amount. -/
theorem c1_refund_status_iff_witness :
    findTransaction store0 1 user7.id = some tx0 ∧
    (newStatusFor 100 tx0.amount = .refunded ↔ (100 : Int) ≥ tx0.amount) :=
  ⟨rfl, (c1_refund_status_iff user7 store0 1 100 none "2026-02-01" "12:00:00"
    "2026-02-01T12:00:00Z" tx0 rfl).2.1⟩

/-- C2: a fault-free refund against an existing owned transaction
appends exactly one new row — a refund of the requested amount, linked
to the original through refund_for, with active status, inheriting the
original's category and payment method — rewrites the original's
status, cross-links the original's original_transaction_id to the new
row's id, and returns the new row. -/
theorem c2_refund_creates_linked_record (u : UserInfo) (s : Store) (oid : Nat)
    (r : Int) (notes : Option String) (today nowTime nowIso : String)
    (T : Transaction) (hT : findTransaction s oid u.id = some T)
    (hfresh : ∀ t ∈ s.transactions, t.id < s.nextId) :
    (refundTransaction (some u) s oid r notes today nowTime nowIso true true).1
      = .ok (insertRow s.nextId u.id (refundInsertOf oid T r notes today nowTime) nowIso) ∧
    (insertRow s.nextId u.id (refundInsertOf oid T r notes today nowTime) nowIso).type
      = .refund ∧
    (insertRow s.nextId u.id (refundInsertOf oid T r notes today nowTime) nowIso).amount
      = r ∧
    (insertRow s.nextId u.id (refundInsertOf oid T r notes today nowTime) nowIso).refund_for
      = some oid ∧
    (insertRow s.nextId u.id (refundInsertOf oid T r notes today nowTime) nowIso).status
      = .active ∧
    (insertRow s.nextId u.id (refundInsertOf oid T r notes today nowTime) nowIso).category
      = T.category ∧
    (insertRow s.nextId u.id (refundInsertOf oid T r notes today nowTime) nowIso).payment_type
      = T.payment_type ∧
    (refundTransaction (some u) s oid r notes today nowTime nowIso true true).2.transactions
      = s.transactions.map (applyRefundUpdate oid (newStatusFor r T.amount) s.nextId)
        ++ [insertRow s.nextId u.id (refundInsertOf oid T r notes today nowTime) nowIso] ∧
    applyRefundUpdate oid (newStatusFor r T.amount) s.nextId T
      = { T with status := newStatusFor r T.amount, original_transaction_id := some s.nextId } := by
  have hT2 := hT
  unfold findTransaction at hT2
  have hids : T.id = oid ∧ T.user_id = u.id := by
    simpa using List.find?_some hT2
  have hmem : T ∈ s.transactions := List.mem_of_find?_eq_some hT2
  have hlt : oid < s.nextId := hids.1 ▸ hfresh T hmem
  rw [refund_post_state u s oid r notes today nowTime nowIso T hT]
  have hne : ((insertRow s.nextId u.id (refundInsertOf oid T r notes today nowTime)
      nowIso).id == oid) = false := by
    simp [insertRow]
    omega
  refine ⟨rfl, rfl, rfl, rfl, rfl, rfl, rfl, ?_, ?_⟩
  · dsimp only
    rw [List.map_append]
    congr 1
    simp [applyRefundUpdate, hne]
  · simp [applyRefundUpdate, hids.1]

/-- C2 witness: the refund-creation theorem evaluated at the concrete
fixture with a refund of 40. -/
theorem c2_refund_creates_linked_record_witness :
    (findTransaction store0 1 user7.id = some tx0 ∧
      ∀ t ∈ store0.transactions, t.id < store0.nextId) ∧
    (refundTransaction (some user7) store0 1 40 none "2026-02-01" "12:00:00"
        "2026-02-01T12:00:00Z" true true).1
      = .ok (insertRow store0.nextId user7.id
          (refundInsertOf 1 tx0 40 none "2026-02-01" "12:00:00") "2026-02-01T12:00:00Z") :=
  ⟨⟨rfl, by decide⟩,
    (c2_refund_creates_linked_record user7 store0 1 40 none "2026-02-01" "12:00:00"
      "2026-02-01T12:00:00Z" tx0 rfl (by decide)).1⟩

/-- C3: with an authenticated caller, an owned transaction and a
reduction strictly below the current amount, reduceInvestmentAmount
returns the row with the amount decremented by the reduction, and
appends exactly one history record with action amount_reduced whose old
and new snapshots carry the amounts before and after. -/
theorem c3_reduce_succeeds_with_history (u : UserInfo) (s : Store) (tid : Nat)
    (r : Int) (notes : Option String) (nowIso : String) (T : Transaction)
    (hT : findTransaction s tid u.id = some T) (hr : r < T.amount) :
    (reduceInvestmentAmount (some u) s tid r notes nowIso).1
      = .ok { T with amount := T.amount - r, notes := some (reduceNotesText T r notes) } ∧
    ({ T with amount := T.amount - r, notes := some (reduceNotesText T r notes) } : Transaction).amount
      = T.amount - r ∧
    (reduceInvestmentAmount (some u) s tid r notes nowIso).2.transaction_history
      = s.transaction_history ++ [reduceHistoryRow s.nextId tid u.id T.amount r notes nowIso] ∧
    (reduceHistoryRow s.nextId tid u.id T.amount r notes nowIso).action = .amount_reduced ∧
    (reduceHistoryRow s.nextId tid u.id T.amount r notes nowIso).old_values
      = some { amount := T.amount } ∧
    (reduceHistoryRow s.nextId tid u.id T.amount r notes nowIso).new_values
      = some { amount := T.amount - r } := by
  rw [reduce_post_state u s tid r notes nowIso T hT hr]
  exact ⟨rfl, rfl, rfl, rfl, rfl, rfl⟩

/-- C3 witness: the reduction theorem evaluated at the concrete fixture
with a reduction of 40 against the amount-100 transaction. -/
theorem c3_reduce_succeeds_with_history_witness :
    (findTransaction store0 1 user7.id = some tx0 ∧ (40 : Int) < tx0.amount) ∧
    (reduceInvestmentAmount (some user7) store0 1 40 none "2026-03-01T09:00:00Z").1
      = .ok { tx0 with amount := tx0.amount - 40, notes := some (reduceNotesText tx0 40 none) } :=
  ⟨⟨rfl, by decide⟩,
    (c3_reduce_succeeds_with_history user7 store0 1 40 none "2026-03-01T09:00:00Z"
      tx0 rfl (by decide)).1⟩

/-- C4: with an authenticated caller and an owned transaction, a
reduction greater than or equal to the current amount is rejected with
the source's invalid-argument message and the store is returned
unchanged: the guard runs before any write. -/
theorem c4_reduce_rejects_when_not_less (u : UserInfo) (s : Store) (tid : Nat)
    (r : Int) (notes : Option String) (nowIso : String) (T : Transaction)
    (hT : findTransaction s tid u.id = some T) (hr : T.amount ≤ r) :
    reduceInvestmentAmount (some u) s tid r notes nowIso
      = (.error (.strError
          "Reduction amount cannot be greater than or equal to original amount"), s) := by
  show reduceInvestmentAmountBody u s tid r notes nowIso = _
  unfold reduceInvestmentAmountBody
  rw [hT]
  dsimp only
  rw [if_pos hr]

/-- C4 witness: reducing by exactly the current amount at the concrete
fixture fails and leaves the store untouched. -/
theorem c4_reduce_rejects_when_not_less_witness :
    (findTransaction store0 1 user7.id = some tx0 ∧ tx0.amount ≤ (100 : Int)) ∧
    reduceInvestmentAmount (some user7) store0 1 100 none "2026-03-01T09:00:00Z"
      = (.error (.strError
          "Reduction amount cannot be greater than or equal to original amount"), store0) :=
  ⟨⟨rfl, by decide⟩,
    c4_reduce_rejects_when_not_less user7 store0 1 100 none "2026-03-01T09:00:00Z"
      tx0 rfl (by decide)⟩

/-- C5 (code evidence): two successive refunds of 80 against the
amount-100 transaction both succeed, leaving refund rows totalling 160
against it — the source never compares cumulative refunds with the
original amount and raises no Conflict. -/
theorem c5_cumulative_refunds_unchecked :
    exOk (refundTransaction (some user7) store0 1 80 none "2026-02-01"
        "12:00:00" "2026-02-01T12:00:00Z" true true).1 = true ∧
    exOk (refundTransaction (some user7)
        (refundTransaction (some user7) store0 1 80 none "2026-02-01"
          "12:00:00" "2026-02-01T12:00:00Z" true true).2
        1 80 none "2026-02-02" "12:05:00" "2026-02-02T12:05:00Z" true true).1 = true ∧
    (((refundTransaction (some user7)
        (refundTransaction (some user7) store0 1 80 none "2026-02-01"
          "12:00:00" "2026-02-01T12:00:00Z" true true).2
        1 80 none "2026-02-02" "12:05:00" "2026-02-02T12:05:00Z" true
        true).2.transactions.filter
      (fun t => t.refund_for == some 1)).map Transaction.amount).sum = 160 ∧
    (100 : Int) < 160 :=
  ⟨rfl, rfl, rfl, by decide⟩

/-- C6 (code evidence): when the status-update write fails after the
refund insert succeeded, refundTransaction still reports success, the
refund row is present in the store, and the original transaction is
still active — the failed reconciliation does not restore the
pre-operation state. -/
theorem c6_no_rollback_on_update_failure :
    exOk (refundTransaction (some user7) store0 1 100 none "2026-02-01"
        "12:00:00" "2026-02-01T12:00:00Z" true false).1 = true ∧
    ((refundTransaction (some user7) store0 1 100 none "2026-02-01"
        "12:00:00" "2026-02-01T12:00:00Z" true false).2.transactions.any
      (fun t => t.type == TType.refund && t.refund_for == some 1)) = true ∧
    ((refundTransaction (some user7) store0 1 100 none "2026-02-01"
        "12:00:00" "2026-02-01T12:00:00Z" true false).2.transactions.find?
      (fun t => t.id == 1)).map Transaction.status = some TStatus.active :=
  ⟨rfl, rfl, rfl⟩

/-- C7 (code evidence): the transaction read of fetchBudgetData returns
a soft-deleted transaction — the source's query filters by user and
date only and has no is_deleted filter, so deleted rows are not
excluded from this read (they are, however, retained in storage). -/
theorem c7_hook_read_returns_deleted :
    txDeleted ∈ fetchTransactionsHook store1 7 none ∧ txDeleted.is_deleted = true := by
  constructor
  · unfold fetchTransactionsHook
    dsimp only
    rw [show store1.transactions.filter (fun t => t.user_id == 7) = [txDeleted] by rfl]
    rw [List.mergeSort_singleton]
    decide
  · rfl

/-- The soft branch of deleteTransaction, written out: it succeeds and
rewrites the matching rows in place. -/
theorem deleteTransaction_soft_eq (u : UserInfo) (s : Store) (id : Nat) (n : String) :
    deleteTransaction (some u) s id true n
      = (.ok (), { s with transactions := s.transactions.map (softDeleteRow id u.id n) }) :=
  rfl

/-- C8: soft-delete is idempotent: applying it twice produces the same
store as applying it once (with the second call's timestamp), the
second application succeeds without error, and the soft-deleted row is
stored with is_deleted true and a cancelled status. -/
theorem c8_soft_delete_idempotent (u : UserInfo) (s : Store) (id : Nat)
    (n1 n2 : String) (T : Transaction) (hmem : T ∈ s.transactions)
    (hid : T.id = id) (huid : T.user_id = u.id) :
    (deleteTransaction (some u) (deleteTransaction (some u) s id true n1).2
        id true n2).1 = .ok () ∧
    (deleteTransaction (some u) (deleteTransaction (some u) s id true n1).2
        id true n2).2 = (deleteTransaction (some u) s id true n2).2 ∧
    (deleteTransaction (some u) (deleteTransaction (some u) s id true n1).2
        id true n1).2 = (deleteTransaction (some u) s id true n1).2 ∧
    softDeleteRow id u.id n1 T ∈ (deleteTransaction (some u) s id true n1).2.transactions ∧
    (softDeleteRow id u.id n1 T).is_deleted = true ∧
    (softDeleteRow id u.id n1 T).status = .cancelled := by
  have hrow2 : (softDeleteRow id u.id n2 ∘ softDeleteRow id u.id n1)
      = softDeleteRow id u.id n2 := funext (softDeleteRow_idem id u.id n1 n2)
  have hrow1 : (softDeleteRow id u.id n1 ∘ softDeleteRow id u.id n1)
      = softDeleteRow id u.id n1 := funext (softDeleteRow_idem id u.id n1 n1)
  refine ⟨rfl, ?_, ?_, ?_, ?_, ?_⟩
  · simp only [deleteTransaction_soft_eq]
    rw [List.map_map, hrow2]
  · simp only [deleteTransaction_soft_eq]
    rw [List.map_map, hrow1]
  · simp only [deleteTransaction_soft_eq]
    exact List.mem_map_of_mem (softDeleteRow id u.id n1) hmem
  · simp [softDeleteRow, hid, huid]
  · simp [softDeleteRow, hid, huid]

/-- C8 witness: idempotence of soft-delete evaluated at the concrete
fixture with two distinct timestamps. -/
theorem c8_soft_delete_idempotent_witness :
    (tx0 ∈ store0.transactions ∧ tx0.id = 1 ∧ tx0.user_id = user7.id) ∧
    (deleteTransaction (some user7)
        (deleteTransaction (some user7) store0 1 true "2026-04-01T08:00:00Z").2
        1 true "2026-04-02T08:00:00Z").2
      = (deleteTransaction (some user7) store0 1 true "2026-04-02T08:00:00Z").2 :=
  ⟨⟨by decide, rfl, rfl⟩,
    (c8_soft_delete_idempotent user7 store0 1 "2026-04-01T08:00:00Z"
      "2026-04-02T08:00:00Z" tx0 (by decide) rfl rfl).2.1⟩

/-- C9: every exported mutation, called without an authenticated user,
returns the error value of the source's guard ("User not
authenticated") and leaves the store exactly as it was: the guard
returns before any query is issued. -/
theorem c9_unauthenticated_guard (s : Store) (cfg : BudgetConfigInput)
    (pin : InvestmentPortfolioInsert) (pup : InvestmentPortfolioUpdate)
    (tin : TransactionInsert) (tup : TransactionUpdate) (id oid tid : Nat)
    (amt : Int) (notes : Option String) (sd : Bool) (d1 d2 d3 : String)
    (iok uok : Bool) :
    saveBudgetConfig none s cfg d1
      = (.error (.strError "User not authenticated"), s) ∧
    saveInvestmentPortfolio none s pin d1
      = (.error (.strError "User not authenticated"), s) ∧
    updateInvestmentPortfolio none s id pup
      = (.error (.strError "User not authenticated"), s) ∧
    deleteInvestmentPortfolio none s id
      = (.error (.strError "User not authenticated"), s) ∧
    addTransaction none s tin d1
      = (.error (.strError "User not authenticated"), s) ∧
    updateTransaction none s tid tup
      = (.error (.strError "User not authenticated"), s) ∧
    deleteTransaction none s tid sd d1
      = (.error (.strError "User not authenticated"), s) ∧
    refundTransaction none s oid amt notes d1 d2 d3 iok uok
      = (.error (.strError "User not authenticated"), s) ∧
    reduceInvestmentAmount none s tid amt notes d1
      = (.error (.strError "User not authenticated"), s) :=
  ⟨rfl, rfl, rfl, rfl, rfl, rfl, rfl, rfl, rfl⟩

/-- C10: a successful reduceInvestmentAmount rewrites the stored
transactions only through the row update that sets amount and notes;
that update preserves every other column of every row, and the other
tables of the store are untouched. -/
theorem c10_reduce_updates_only_amount_and_notes (u : UserInfo) (s : Store)
    (tid : Nat) (r : Int) (notes : Option String) (nowIso : String)
    (T : Transaction) (hT : findTransaction s tid u.id = some T)
    (hr : r < T.amount) :
    (reduceInvestmentAmount (some u) s tid r notes nowIso).2.transactions
      = s.transactions.map
          (reduceRowUpdate tid u.id (T.amount - r) (reduceNotesText T r notes)) ∧
    (∀ t : Transaction,
      (reduceRowUpdate tid u.id (T.amount - r) (reduceNotesText T r notes) t).id = t.id ∧
      (reduceRowUpdate tid u.id (T.amount - r) (reduceNotesText T r notes) t).user_id
        = t.user_id ∧
      (reduceRowUpdate tid u.id (T.amount - r) (reduceNotesText T r notes) t).type = t.type ∧
      (reduceRowUpdate tid u.id (T.amount - r) (reduceNotesText T r notes) t).category
        = t.category ∧
      (reduceRowUpdate tid u.id (T.amount - r) (reduceNotesText T r notes) t).description
        = t.description ∧
      (reduceRowUpdate tid u.id (T.amount - r) (reduceNotesText T r notes) t).date = t.date ∧
      (reduceRowUpdate tid u.id (T.amount - r) (reduceNotesText T r notes) t).time = t.time ∧
      (reduceRowUpdate tid u.id (T.amount - r) (reduceNotesText T r notes) t).payment_type
        = t.payment_type ∧
      (reduceRowUpdate tid u.id (T.amount - r) (reduceNotesText T r notes) t).spent_for
        = t.spent_for ∧
      (reduceRowUpdate tid u.id (T.amount - r) (reduceNotesText T r notes) t).tag = t.tag ∧
      (reduceRowUpdate tid u.id (T.amount - r) (reduceNotesText T r notes) t).portfolio_id
        = t.portfolio_id ∧
      (reduceRowUpdate tid u.id (T.amount - r) (reduceNotesText T r notes) t).investment_type
        = t.investment_type ∧
      (reduceRowUpdate tid u.id (T.amount - r) (reduceNotesText T r notes) t).refund_for
        = t.refund_for ∧
      (reduceRowUpdate tid u.id (T.amount - r)
          (reduceNotesText T r notes) t).original_transaction_id
        = t.original_transaction_id ∧
      (reduceRowUpdate tid u.id (T.amount - r) (reduceNotesText T r notes) t).status
        = t.status ∧
      (reduceRowUpdate tid u.id (T.amount - r) (reduceNotesText T r notes) t).is_deleted
        = t.is_deleted ∧
      (reduceRowUpdate tid u.id (T.amount - r) (reduceNotesText T r notes) t).created_at
        = t.created_at ∧
      (reduceRowUpdate tid u.id (T.amount - r) (reduceNotesText T r notes) t).updated_at
        = t.updated_at ∧
      (reduceRowUpdate tid u.id (T.amount - r) (reduceNotesText T r notes) t).deleted_at
        = t.deleted_at) ∧
    (reduceInvestmentAmount (some u) s tid r notes nowIso).2.profiles = s.profiles ∧
    (reduceInvestmentAmount (some u) s tid r notes nowIso).2.budget_configs
      = s.budget_configs ∧
    (reduceInvestmentAmount (some u) s tid r notes nowIso).2.investment_portfolios
      = s.investment_portfolios := by
  rw [reduce_post_state u s tid r notes nowIso T hT hr]
  refine ⟨rfl, ?_, rfl, rfl, rfl⟩
  intro t
  unfold reduceRowUpdate
  split
  · exact ⟨rfl, rfl, rfl, rfl, rfl, rfl, rfl, rfl, rfl, rfl, rfl, rfl, rfl, rfl, rfl,
      rfl, rfl, rfl, rfl⟩
  · exact ⟨rfl, rfl, rfl, rfl, rfl, rfl, rfl, rfl, rfl, rfl, rfl, rfl, rfl, rfl, rfl,
      rfl, rfl, rfl, rfl⟩

/-- C10 witness: the frame theorem evaluated at the concrete fixture. -/
theorem c10_reduce_updates_only_amount_and_notes_witness :
    (findTransaction store0 1 user7.id = some tx0 ∧ (40 : Int) < tx0.amount) ∧
    (reduceInvestmentAmount (some user7) store0 1 40 none "2026-03-01T09:00:00Z").2.transactions
      = store0.transactions.map
          (reduceRowUpdate 1 user7.id (tx0.amount - 40) (reduceNotesText tx0 40 none)) :=
  ⟨⟨rfl, by decide⟩,
    (c10_reduce_updates_only_amount_and_notes user7 store0 1 40 none
      "2026-03-01T09:00:00Z" tx0 rfl (by decide)).1⟩

end BudgetHub
